import Mathlib

/-!
Shallow embedding of the feed-collector script `twitter.py`
(`scrape_user_tweets` and `_parse_count`) together with theorems checking
the natural-language specification against it.

Modelling conventions:
* Python strings are Lean `String`s; the handful of Python `str` methods the
  script uses (`strip`, `upper`, `replace`, `split`, `in`) are modelled
  explicitly on character lists below.
* Fallible Python code is modelled with `Option`/dedicated result types:
  `none` models a raised exception at the point where Python would raise.
* Python `int` is Lean `Int`; Python `float` values arising in `_parse_count`
  are modelled as exact rationals (`Rat`); for the short decimal strings the
  script handles the truncated products agree with IEEE double evaluation.
* The Selenium driver is modelled as an environment (`Env`) of oracles: flags
  for driver start / navigation / initial-wait success, and a per-scroll-pass
  view (`Pass`) giving the rendered articles, the scroll height observed after
  the pass, and whether a session-level error is raised during the pass.
* The unbounded `while` loop is modelled with a fuel parameter; the loop is
  non-terminating on an environment exactly when every fuel gives `.fuelOut`.
-/

/-! ## Python string-operation models -/

/-- Model of Python `str.strip()`: drop whitespace from both ends. -/
def pyStrip (s : String) : String :=
  String.mk (((s.toList.dropWhile Char.isWhitespace).reverse.dropWhile
    Char.isWhitespace).reverse)

/-- Model of Python `str.upper()` (ASCII range, which is all the script needs). -/
def pyUpper (s : String) : String :=
  String.mk (s.toList.map Char.toUpper)

/-- Replace every occurrence of the nonempty pattern `p :: ps` in a character
list, left to right, non-overlapping — the semantics of Python
`str.replace`.  Structural recursion on a fuel that starts at the list
length; every step consumes at least one character, so the fuel never runs
out on the intended calls. -/
def replaceAux (p : Char) (ps rep : List Char) : Nat → List Char → List Char
  | _, [] => []
  | 0, l => l
  | fuel + 1, c :: rest =>
    if (p :: ps).isPrefixOf (c :: rest) then
      rep ++ replaceAux p ps rep fuel (rest.drop ps.length)
    else
      c :: replaceAux p ps rep fuel rest

/-- Model of Python `s.replace(pat, rep)` for a nonempty `pat`. -/
def pyReplace (s pat rep : String) : String :=
  match pat.toList with
  | [] => s
  | p :: ps => String.mk (replaceAux p ps rep.toList s.toList.length s.toList)

/-- Split a character list on the nonempty separator `p :: ps`, left to right,
non-overlapping — the semantics of Python `str.split(sep)`.  Fuel-structural
as in `replaceAux`. -/
def splitAux (p : Char) (ps : List Char) : Nat → List Char → List (List Char)
  | _, [] => [[]]
  | 0, l => [l]
  | fuel + 1, c :: rest =>
    if (p :: ps).isPrefixOf (c :: rest) then
      [] :: splitAux p ps fuel (rest.drop ps.length)
    else
      match splitAux p ps fuel rest with
      | [] => [[c]]
      | h :: t => (c :: h) :: t

/-- Model of Python `s.split(sep)` for a nonempty `sep`. -/
def pySplit (s sep : String) : List String :=
  match sep.toList with
  | [] => [s]
  | p :: ps => (splitAux p ps s.toList.length s.toList).map String.mk

/-- Is `pat` a contiguous sublist of the argument? -/
def infixOfChars (pat : List Char) : List Char → Bool
  | [] => pat.isEmpty
  | c :: rest => pat.isPrefixOf (c :: rest) || infixOfChars pat rest

/-- Model of Python `sub in s` for strings. -/
def pyIn (sub s : String) : Bool :=
  infixOfChars sub.toList s.toList

/-! ## `_parse_count`: numeric parsing -/

/-- Value of a nonempty all-digit character list; `none` otherwise. -/
def digitsVal (cs : List Char) : Option Nat :=
  if cs ≠ [] ∧ cs.all Char.isDigit then
    some (cs.foldl (fun n c => n * 10 + (c.toNat - 48)) 0)
  else none

/-- Model of Python `int(s)` on a string: optional sign then digits;
`none` models a raised `ValueError`. -/
def pyInt (s : String) : Option Int :=
  match s.toList with
  | '+' :: r => (digitsVal r).map Int.ofNat
  | '-' :: r => (digitsVal r).map (fun n => -(n : Int))
  | r => (digitsVal r).map Int.ofNat

/-- Value of an all-digit character list (no emptiness check). -/
def natDigits (cs : List Char) : Nat :=
  cs.foldl (fun n c => n * 10 + (c.toNat - 48)) 0

/-- Model of Python `float(s)` restricted to plain decimal literals
(optional sign, digits with an optional point, at least one digit), the
only shapes `_parse_count` can meet.  The value is kept exact as a scaled
integer: `(m, e)` stands for `m / 10 ^ e`.  `none` models a raised
`ValueError`. -/
def pyFloat (s : String) : Option (Int × Nat) :=
  let body : List Char → Option (Int × Nat) := fun cs =>
    match splitAux '.' [] cs.length cs with
    | [ip] =>
      if ip ≠ [] ∧ ip.all Char.isDigit then
        some ((natDigits ip : Int), 0)
      else none
    | [ip, fp] =>
      if (ip ≠ [] ∨ fp ≠ []) ∧ ip.all Char.isDigit ∧ fp.all Char.isDigit then
        some (((natDigits ip * 10 ^ fp.length + natDigits fp : Nat) : Int), fp.length)
      else none
    | _ => none
  match s.toList with
  | '+' :: r => body r
  | '-' :: r => (body r).map (fun q => (-q.1, q.2))
  | r => body r

/-- Truncation toward zero of `(m / 10 ^ e) * mult` — the semantics of
Python `int(float * mult)` applied to the exact decimal value. -/
def truncScaled (q : Int × Nat) (mult : Int) : Int :=
  Int.tdiv (q.1 * mult) ((10 ^ q.2 : Nat) : Int)

/-- Model of `_parse_count` (`twitter.py` lines 192–207).  `none` models a
`ValueError` escaping the function: the `try`/`except` only wraps the plain
`int(...)` branch, so `float(...)` failures in the `K`/`M` branches
propagate to the caller. -/
def _parse_count (count_str : String) : Option Int :=
  if count_str.isEmpty then some 0
  else
    let t := pyUpper (pyStrip count_str)
    if t.toList.contains 'K' then
      (pyFloat (pyReplace t "K" "")).map (fun q => truncScaled q 1000)
    else if t.toList.contains 'M' then
      (pyFloat (pyReplace t "M" "")).map (fun q => truncScaled q 1000000)
    else
      match pyInt t with
      | some n => some n
      | none => some 0

/-! ## Hashtag / mention extraction -/

/-- A regex word character (`\w`), ASCII range. -/
def isWordChar (c : Char) : Bool :=
  c.isAlphanum || c = '_'

/-- Model of `re.findall(marker ++ r'(\w+)', text)`: leftmost,
non-overlapping matches of the marker followed by a maximal nonempty run of
word characters, returning the runs in order of appearance with duplicates
retained. -/
def findMarkedAux (marker : Char) : Nat → List Char → List String
  | _, [] => []
  | 0, _ => []
  | fuel + 1, c :: rest =>
    if c = marker then
      let run := rest.takeWhile isWordChar
      if run.isEmpty then findMarkedAux marker fuel rest
      else String.mk run :: findMarkedAux marker fuel (rest.drop run.length)
    else findMarkedAux marker fuel rest

/-- `findMarkedAux` started with enough fuel for the whole list. -/
def findMarked (marker : Char) (l : List Char) : List String :=
  findMarkedAux marker l.length l

/-! ## Timestamp normalization -/

/-- Two-digit value; `none` if either character is not a digit. -/
def dig2 (a b : Char) : Option Nat :=
  if a.isDigit ∧ b.isDigit then some ((a.toNat - 48) * 10 + (b.toNat - 48))
  else none

/-- A valid `HH:MM` UTC-offset tail (what may follow `+`/`-`). -/
def offsetOk : List Char → Bool
  | [h1, h2, ':', m1, m2] =>
    match dig2 h1 h2, dig2 m1 m2 with
    | some h, some m => decide (h ≤ 23 ∧ m ≤ 59)
    | _, _ => false
  | _ => false

/-- A valid fractional-seconds tail (3 or 6 digits) possibly followed by a
signed offset. -/
def fracOffsetOk (cs : List Char) : Bool :=
  let ds := cs.takeWhile Char.isDigit
  let rest := cs.drop ds.length
  (ds.length = 3 ∨ ds.length = 6) &&
    (match rest with
     | [] => true
     | '+' :: r => offsetOk r
     | '-' :: r => offsetOk r
     | _ => false)

/-- Parse the time-of-day part (`HH[:MM[:SS[.fff[fff]]]][±HH:MM]`) of an
ISO-8601 string, returning hour, minute and second. -/
def timeTail (cs : List Char) : Option (Nat × Nat × Nat) :=
  match cs with
  | [h1, h2] => do
    let h ← dig2 h1 h2
    guard (h ≤ 23)
    pure (h, 0, 0)
  | h1 :: h2 :: ':' :: n1 :: n2 :: rest => do
    let h ← dig2 h1 h2
    let mi ← dig2 n1 n2
    guard (h ≤ 23 ∧ mi ≤ 59)
    match rest with
    | [] => pure (h, mi, 0)
    | '+' :: r => do guard (offsetOk r = true); pure (h, mi, 0)
    | '-' :: r => do guard (offsetOk r = true); pure (h, mi, 0)
    | ':' :: s1 :: s2 :: rest2 => do
      let se ← dig2 s1 s2
      guard (se ≤ 59)
      match rest2 with
      | [] => pure (h, mi, se)
      | '.' :: r => do guard (fracOffsetOk r = true); pure (h, mi, se)
      | '+' :: r => do guard (offsetOk r = true); pure (h, mi, se)
      | '-' :: r => do guard (offsetOk r = true); pure (h, mi, se)
      | _ => none
    | _ => none
  | _ => none

/-- Left-pad a (two-digit-range) number to two digits. -/
def pad2 (n : Nat) : String :=
  if n < 10 then "0" ++ toString n else toString n

/-- Modelled from the library calls
`datetime.fromisoformat(s).strftime("%Y-%m-%d %H:%M:%S")` (`twitter.py`
line 96): parse `YYYY-MM-DD[*HH[:MM[:SS[.fff[fff]]]][±HH:MM]]` (the CPython
`fromisoformat` grammar, any single separator character, without
calendar-exact day validation) and re-format the broken-down fields.
`none` models a raised `ValueError`. -/
def isoDisplay (s : String) : Option String :=
  match s.toList with
  | y1 :: y2 :: y3 :: y4 :: '-' :: m1 :: m2 :: '-' :: d1 :: d2 :: rest => do
    guard (y1.isDigit ∧ y2.isDigit ∧ y3.isDigit ∧ y4.isDigit)
    let mo ← dig2 m1 m2
    let dy ← dig2 d1 d2
    guard (1 ≤ mo ∧ mo ≤ 12 ∧ 1 ≤ dy ∧ dy ≤ 31)
    let hms ← match rest with
      | [] => some (0, 0, 0)
      | _ :: timecs => timeTail timecs
    pure (String.mk [y1, y2, y3, y4] ++ "-" ++ String.mk [m1, m2] ++ "-" ++
      String.mk [d1, d2] ++ " " ++ pad2 hms.1 ++ ":" ++ pad2 hms.2.1 ++ ":" ++
      pad2 hms.2.2)
  | _ => none

/-! ## Data model -/

/-- One collected record, the dictionary built at `twitter.py` lines 140–151. -/
structure Tweet where
  id : String
  date : Option String
  content : String
  url : String
  replyCount : Int
  retweetCount : Int
  likeCount : Int
  hashtags : List String
  mentionedUsers : List String
  has_media : Bool
deriving DecidableEq, Repr

/-- One rendered `article[data-testid='tweet']` container, as the script
observes it through the rendering session:
* `links`: the `href`s of the `a[href*='/status/']` descendants;
* `tweetText`: the text of the `div[data-testid='tweetText']` block,
  `none` when the element is absent (`NoSuchElementException`);
* `timeAttr`: `none` when no `time` element exists; `some a` when it exists
  and its `datetime` attribute is `a` (itself `none` when the attribute is
  missing, in which case Python's `timestamp.replace` raises
  `AttributeError`);
* `statElems`: the `(data-testid, text)` pairs of the
  `div[data-testid$='-count']` elements;
* `mediaCount`: how many photo/video placeholder elements exist. -/
structure Article where
  links : List String
  tweetText : Option String
  timeAttr : Option (Option String)
  statElems : List (String × String)
  mediaCount : Nat
deriving Repr

/-! ## Per-item extraction -/

/-- The id search at lines 73–79: the first link whose `href` contains
`/status/` yields `href.split("/status/")[1].split("?")[0]`. -/
def tweetIdOf (links : List String) : Option String :=
  (links.find? (fun h => pyIn "/status/" h)).map
    (fun h => ((pySplit ((pySplit h "/status/").getD 1 "") "?").headD ""))

/-- The duplicate test at line 82: skip when the id is truthy and already
present in the accumulated list. -/
def dupSkip (existing : List Tweet) (a : Article) : Bool :=
  match tweetIdOf a.links with
  | some tid => !tid.isEmpty && existing.any (fun t => t.id == tid)
  | none => false

/-- Result of the timestamp block at lines 93–98.  `skip` models the
`AttributeError` raised by `None.replace` when the `datetime` attribute is
missing: it is not in the inner `except` tuple, so it escapes to the
per-item handler and the whole item is skipped. -/
inductive DateRes where
  | skip
  | val (d : Option String)
deriving DecidableEq

/-- The timestamp block at lines 93–98. -/
def dateVal : Option (Option String) → DateRes
  | none => .val none
  | some none => .skip
  | some (some ts) =>
    match isoDisplay (pyReplace ts "Z" "+00:00") with
    | some d => .val (some d)
    | none => .val none

/-- One step of the stats scan at lines 109–116; `none` models a
`ValueError` from `_parse_count` escaping the stats block (its `except`
only lists `NoSuchElementException`). -/
def statUpdate (acc : Int × Int × Int) (e : String × String) :
    Option (Int × Int × Int) :=
  if pyIn "reply-count" e.1 then
    (_parse_count e.2).map (fun v => (v, acc.2.1, acc.2.2))
  else if pyIn "retweet-count" e.1 then
    (_parse_count e.2).map (fun v => (acc.1, v, acc.2.2))
  else if pyIn "like-count" e.1 then
    (_parse_count e.2).map (fun v => (acc.1, acc.2.1, v))
  else some acc

/-- The engagement-stats block at lines 101–118, starting from the zero
defaults. -/
def statsOf (es : List (String × String)) : Option (Int × Int × Int) :=
  es.foldlM statUpdate (0, 0, 0)

/-- Per-item extraction, the body of the `for article in articles` loop at
lines 70–164.  `none` means the article contributes nothing to the list:
a truthy duplicate id, an exception caught by the outer per-item handler,
or a missing/falsy id. -/
def extractArticle (username : String) (existing : List Tweet)
    (a : Article) : Option Tweet :=
  if dupSkip existing a then none
  else
    let content := a.tweetText.getD ""
    match dateVal a.timeAttr with
    | .skip => none
    | .val date? =>
      match statsOf a.statElems with
      | none => none
      | some s =>
        match tweetIdOf a.links with
        | some tid =>
          if tid.isEmpty then none
          else
            some
              { id := tid
                date := date?
                content := content
                url := "https://twitter.com/" ++ username ++ "/status/" ++ tid
                replyCount := s.1
                retweetCount := s.2.1
                likeCount := s.2.2
                hashtags :=
                  if content.isEmpty then [] else findMarked '#' content.toList
                mentionedUsers :=
                  if content.isEmpty then [] else findMarked '@' content.toList
                has_media := decide (0 < a.mediaCount) }
        | none => none

/-! ## The collection loop -/

/-- One scroll pass as the environment presents it: the articles rendered
when the pass enumerates containers, whether a session-level error is
raised during the pass, and the scroll height observed after scrolling. -/
structure Pass where
  articles : List Article
  raise : Bool
  height : Int

/-- The oracles the rendering session supplies to one run. -/
structure Env where
  startOk : Bool
  navOk : Bool
  waitOk : Bool
  initHeight : Int
  passes : Nat → Pass

/-- The inner `for article in articles` loop (lines 70–164) threading the
accumulated list and the `new_tweets` counter, with the early `break` once
the limit is reached (lines 159–160). -/
def processArticles (username : String) (limit : Int) :
    List Article → List Tweet → Nat → List Tweet × Nat
  | [], ts, n => (ts, n)
  | a :: rest, ts, n =>
    match extractArticle username ts a with
    | none => processArticles username limit rest ts n
    | some tw =>
      let ts' := ts ++ [tw]
      if (ts'.length : Int) ≥ limit then (ts', n + 1)
      else processArticles username limit rest ts' (n + 1)

/-- How the `while` loop ends: normal exit, a propagating session-level
exception carrying the state at the raise, or fuel exhaustion (the modelled
run did not finish within `fuel` iterations). -/
inductive LoopResult where
  | done (ts : List Tweet)
  | raised (ts : List Tweet)
  | fuelOut
deriving DecidableEq, Repr

/-- The `while len(tweets_list) < limit` loop (lines 65–179).  `k` indexes
the scroll pass, `lastH` is the `last_height` variable.  The condition is
checked before fuel is spent, matching Python's evaluation order. -/
def loop (env : Env) (username : String) (limit : Int) :
    Nat → Nat → List Tweet → Int → LoopResult
  | fuel, k, ts, lastH =>
    if (ts.length : Int) < limit then
      match fuel with
      | 0 => .fuelOut
      | fuel' + 1 =>
        let p := env.passes k
        if p.raise then .raised ts
        else
          let pr := processArticles username limit p.articles ts 0
          if (pr.1.length : Int) ≥ limit then .done pr.1
          else if p.height = lastH ∧ pr.2 = 0 then .done pr.1
          else loop env username limit fuel' (k + 1) pr.1 p.height
    else .done ts

/-! ## The whole run -/

/-- The single `json.dump` call at lines 184–185 with its constants:
`ensure_ascii=False`, `indent=4`, `encoding='utf-8'`. -/
structure WriteEvent where
  path : String
  data : List Tweet
  ensureAscii : Bool
  indent : Nat
  encoding : String
deriving DecidableEq, Repr

/-- How a run of `scrape_user_tweets` ends for the caller. -/
inductive Outcome where
  | ok (ts : List Tweet)
  | err
  | fuelOut
deriving DecidableEq, Repr

/-- Observable effects of one run: whether the driver was created, how many
times `driver.quit()` ran, the at-most-one file write, and the outcome. -/
structure Trace where
  acquired : Bool
  quits : Nat
  written : Option WriteEvent
  outcome : Outcome
deriving DecidableEq, Repr

/-- The default-path computation at lines 28–29 (`if not output_file`). -/
def outputFileOf (output_file : Option String) (username : String) : String :=
  match output_file with
  | some s => if s.isEmpty then username ++ "_tweets.json" else s
  | none => username ++ "_tweets.json"

/-- Model of `scrape_user_tweets` (lines 15–190).  A `false` `startOk`
models `webdriver.Chrome(...)` raising, `navOk` models `driver.get`
raising, `waitOk` models whether the 20-second wait for an article
container resolves.  Note the source has no `try`/`finally`: `driver.quit()`
runs only at line 56 (timeout) and line 181 (normal loop exit). -/
def scrape_user_tweets (env : Env) (username : String) (limit : Int)
    (output_file : Option String) (fuel : Nat) : Trace :=
  if env.startOk then
    if env.navOk then
      if env.waitOk then
        match loop env username limit fuel 0 [] env.initHeight with
        | .done ts =>
          { acquired := true, quits := 1
            written := some
              { path := outputFileOf output_file username, data := ts
                ensureAscii := false, indent := 4, encoding := "utf-8" }
            outcome := .ok ts }
        | .raised _ =>
          { acquired := true, quits := 0, written := none, outcome := .err }
        | .fuelOut =>
          { acquired := true, quits := 0, written := none, outcome := .fuelOut }
      else
        { acquired := true, quits := 1, written := none, outcome := .ok [] }
    else
      { acquired := true, quits := 0, written := none, outcome := .err }
  else
    { acquired := false, quits := 0, written := none, outcome := .err }

/-- The returned list of a run (empty when the run did not return). -/
def resultTweets (t : Trace) : List Tweet :=
  match t.outcome with
  | .ok ts => ts
  | _ => []

/-- The accumulated list carried by a loop exit. -/
def exitTweets : LoopResult → List Tweet
  | .done ts => ts
  | .raised ts => ts
  | .fuelOut => []

/-! ## Concrete instances used by witnesses and counterexamples -/

/-- An article carrying only a permalink and a text block. -/
def mkStatusArticle (username n txt : String) : Article :=
  { links := ["https://twitter.com/" ++ username ++ "/status/" ++ n]
    tweetText := some txt, timeAttr := none, statElems := [], mediaCount := 0 }

/-- A well-behaved session: everything succeeds, every pass renders the same
three articles (the third a duplicate of the first), constant scroll height. -/
def envGood : Env :=
  { startOk := true, navOk := true, waitOk := true, initHeight := 0
    passes := fun _ =>
      { articles := [mkStatusArticle "alice" "1" "hi #a",
                     mkStatusArticle "alice" "2" "yo @b",
                     mkStatusArticle "alice" "1" "dup"]
        raise := false, height := 0 } }

/-- A session whose initial wait times out. -/
def envTimeout : Env :=
  { startOk := true, navOk := true, waitOk := false, initHeight := 0
    passes := fun _ => { articles := [], raise := false, height := 0 } }

/-- A session where navigation raises after the driver is acquired. -/
def envNavFail : Env :=
  { startOk := true, navOk := false, waitOk := true, initHeight := 0
    passes := fun _ => { articles := [], raise := false, height := 0 } }

/-- A feed that never yields an item while its scroll height grows on every
pass, so neither loop-exit condition ever fires. -/
def envDiverge : Env :=
  { startOk := true, navOk := true, waitOk := true, initHeight := 0
    passes := fun k => { articles := [], raise := false, height := (k : Int) + 1 } }

/-- The tag/mention example article from the specification. -/
def artTagged : Article :=
  mkStatusArticle "bob" "9" "Loving #rust and #go, cc @alice"

/-- An article whose `time` element exists but whose `datetime` attribute is
missing. -/
def artAttrMissing : Article :=
  { links := ["https://twitter.com/alice/status/123"], tweetText := some "hi"
    timeAttr := some none, statElems := [], mediaCount := 0 }

/-- An article with no `time` element at all. -/
def artNoTime : Article := mkStatusArticle "carol" "7" "plain"

/-- The record `artNoTime` extracts to. -/
def twNoTime : Tweet :=
  { id := "7", date := none, content := "plain"
    url := "https://twitter.com/carol/status/7"
    replyCount := 0, retweetCount := 0, likeCount := 0
    hashtags := [], mentionedUsers := [], has_media := false }

/-! ## Helper lemmas about the inner article loop -/

theorem processArticles_count (u : String) (limit : Int) :
    ∀ (as : List Article) (ts : List Tweet) (n : Nat),
      (processArticles u limit as ts n).1.length + n =
        ts.length + (processArticles u limit as ts n).2 ∧
      n ≤ (processArticles u limit as ts n).2 := by
  intro as
  induction as with
  | nil => intro ts n; simp [processArticles]
  | cons a rest ih =>
    intro ts n
    simp only [processArticles]
    cases hx : extractArticle u ts a with
    | none => exact ih ts n
    | some tw =>
      dsimp only
      by_cases hl : ((ts ++ [tw]).length : Int) ≥ limit
      · rw [if_pos hl]
        simp [List.length_append]
        omega
      · rw [if_neg hl]
        have h := ih (ts ++ [tw]) (n + 1)
        simp [List.length_append] at h ⊢
        omega

theorem processArticles_le (u : String) (limit : Int) :
    ∀ (as : List Article) (ts : List Tweet) (n : Nat),
      (ts.length : Int) < limit →
      ((processArticles u limit as ts n).1.length : Int) ≤ limit := by
  intro as
  induction as with
  | nil => intro ts n h; simpa [processArticles] using le_of_lt h
  | cons a rest ih =>
    intro ts n h
    simp only [processArticles]
    cases hx : extractArticle u ts a with
    | none => exact ih ts n h
    | some tw =>
      dsimp only
      by_cases hl : ((ts ++ [tw]).length : Int) ≥ limit
      · rw [if_pos hl]
        simp [List.length_append] at *
        omega
      · rw [if_neg hl]
        exact ih (ts ++ [tw]) (n + 1) (by omega)

theorem extractArticle_fresh (u : String) (ts : List Tweet) (a : Article)
    (tw : Tweet) (h : extractArticle u ts a = some tw) :
    ∀ t ∈ ts, t.id ≠ tw.id := by
  intro t ht
  unfold extractArticle at h
  by_cases hd : dupSkip ts a
  · simp [hd] at h
  · simp only [if_neg hd] at h
    cases hdv : dateVal a.timeAttr with
    | skip => rw [hdv] at h; exact absurd h (by simp)
    | val date? =>
      rw [hdv] at h
      cases hs : statsOf a.statElems with
      | none => rw [hs] at h; exact absurd h (by simp)
      | some s =>
        rw [hs] at h
        cases hid : tweetIdOf a.links with
        | none => rw [hid] at h; exact absurd h (by simp)
        | some tid =>
          rw [hid] at h
          by_cases he : tid.isEmpty
          · simp [he] at h
          · simp only [if_neg he, Option.some.injEq] at h
            have htw : tw.id = tid := by rw [← h]
            unfold dupSkip at hd
            rw [hid] at hd
            simp only [Bool.not_eq_true, Bool.and_eq_false_iff] at hd
            rcases hd with hd | hd
            · simp [Bool.not_eq_true'] at hd
              exact absurd hd he
            · rw [List.any_eq_false] at hd
              have := hd t ht
              simp only [beq_iff_eq] at this
              rw [htw]
              exact this

theorem processArticles_nodup (u : String) (limit : Int) :
    ∀ (as : List Article) (ts : List Tweet) (n : Nat),
      (ts.map Tweet.id).Nodup →
      ((processArticles u limit as ts n).1.map Tweet.id).Nodup := by
  intro as
  induction as with
  | nil => intro ts n h; simpa [processArticles] using h
  | cons a rest ih =>
    intro ts n h
    simp only [processArticles]
    cases hx : extractArticle u ts a with
    | none => exact ih ts n h
    | some tw =>
      have hfresh := extractArticle_fresh u ts a tw hx
      have hnd : ((ts ++ [tw]).map Tweet.id).Nodup := by
        simp only [List.map_append, List.map_cons, List.map_nil]
        rw [List.nodup_append]
        refine ⟨h, List.nodup_singleton _, ?_⟩
        intro x hx1 hx2
        simp only [List.mem_singleton] at hx2
        rcases List.mem_map.mp hx1 with ⟨t, ht, rfl⟩
        exact hfresh t ht (hx2 ▸ rfl)
      dsimp only
      by_cases hl : ((ts ++ [tw]).length : Int) ≥ limit
      · rw [if_pos hl]
        simpa using hnd
      · rw [if_neg hl]
        exact ih (ts ++ [tw]) (n + 1) hnd

/-! ## Helper lemmas about the scroll loop -/

theorem loop_len_le (env : Env) (u : String) (limit : Int) (h0 : 0 ≤ limit) :
    ∀ (fuel k : Nat) (ts : List Tweet) (lastH : Int),
      (ts.length : Int) ≤ limit →
      ((exitTweets (loop env u limit fuel k ts lastH)).length : Int) ≤ limit := by
  intro fuel
  induction fuel with
  | zero =>
    intro k ts lastH hts
    simp only [loop]
    by_cases hc : (ts.length : Int) < limit
    · rw [if_pos hc]
      simpa [exitTweets] using h0
    · rw [if_neg hc]
      simpa [exitTweets] using hts
  | succ fuel ih =>
    intro k ts lastH hts
    simp only [loop]
    by_cases hc : (ts.length : Int) < limit
    · rw [if_pos hc]
      by_cases hr : (env.passes k).raise = true
      · rw [if_pos hr]
        simpa [exitTweets] using hts
      · rw [if_neg hr]
        have hle := processArticles_le u limit (env.passes k).articles ts 0 hc
        by_cases h1 :
            ((processArticles u limit (env.passes k).articles ts 0).1.length : Int) ≥ limit
        · rw [if_pos h1]
          simpa [exitTweets] using hle
        · rw [if_neg h1]
          by_cases h2 : (env.passes k).height = lastH ∧
              (processArticles u limit (env.passes k).articles ts 0).2 = 0
          · rw [if_pos h2]
            simpa [exitTweets] using hle
          · rw [if_neg h2]
            exact ih (k + 1) (processArticles u limit (env.passes k).articles ts 0).1
              (env.passes k).height hle
    · rw [if_neg hc]
      simpa [exitTweets] using hts

theorem loop_nodup (env : Env) (u : String) (limit : Int) :
    ∀ (fuel k : Nat) (ts : List Tweet) (lastH : Int),
      (ts.map Tweet.id).Nodup →
      ((exitTweets (loop env u limit fuel k ts lastH)).map Tweet.id).Nodup := by
  intro fuel
  induction fuel with
  | zero =>
    intro k ts lastH hts
    simp only [loop]
    by_cases hc : (ts.length : Int) < limit
    · rw [if_pos hc]
      simp [exitTweets]
    · rw [if_neg hc]
      simpa [exitTweets] using hts
  | succ fuel ih =>
    intro k ts lastH hts
    simp only [loop]
    by_cases hc : (ts.length : Int) < limit
    · rw [if_pos hc]
      by_cases hr : (env.passes k).raise = true
      · rw [if_pos hr]
        simpa [exitTweets] using hts
      · rw [if_neg hr]
        have hnd := processArticles_nodup u limit (env.passes k).articles ts 0 hts
        by_cases h1 :
            ((processArticles u limit (env.passes k).articles ts 0).1.length : Int) ≥ limit
        · rw [if_pos h1]
          simpa [exitTweets] using hnd
        · rw [if_neg h1]
          by_cases h2 : (env.passes k).height = lastH ∧
              (processArticles u limit (env.passes k).articles ts 0).2 = 0
          · rw [if_pos h2]
            simpa [exitTweets] using hnd
          · rw [if_neg h2]
            exact ih (k + 1) (processArticles u limit (env.passes k).articles ts 0).1
              (env.passes k).height hnd
    · rw [if_neg hc]
      simpa [exitTweets] using hts

theorem loop_no_fuelOut (env : Env) (u : String) (limit : Int) (N : Nat) (H : Int)
    (hH : ∀ k, N ≤ k → (env.passes k).height = H) :
    ∀ (fuel k : Nat) (ts : List Tweet) (lastH : Int),
      (N < k → lastH = H) →
      N + 1 - k + (limit.toNat + 1 - ts.length) ≤ fuel →
      loop env u limit fuel k ts lastH ≠ .fuelOut := by
  intro fuel
  induction fuel with
  | zero =>
    intro k ts lastH hinv hm
    simp only [loop]
    by_cases hc : (ts.length : Int) < limit
    · exfalso
      omega
    · rw [if_neg hc]
      simp
  | succ fuel ih =>
    intro k ts lastH hinv hm
    simp only [loop]
    by_cases hc : (ts.length : Int) < limit
    · rw [if_pos hc]
      by_cases hr : (env.passes k).raise = true
      · rw [if_pos hr]
        simp
      · rw [if_neg hr]
        have hcnt := processArticles_count u limit (env.passes k).articles ts 0
        by_cases h1 :
            ((processArticles u limit (env.passes k).articles ts 0).1.length : Int) ≥ limit
        · rw [if_pos h1]
          simp
        · rw [if_neg h1]
          by_cases h2 : (env.passes k).height = lastH ∧
              (processArticles u limit (env.passes k).articles ts 0).2 = 0
          · rw [if_pos h2]
            simp
          · rw [if_neg h2]
            apply ih (k + 1) (processArticles u limit (env.passes k).articles ts 0).1
              (env.passes k).height
            · intro hk
              exact hH k (by omega)
            · by_cases hkN : k ≤ N
              · omega
              · have hlast : lastH = H := hinv (by omega)
                have hh : (env.passes k).height = H := hH k (by omega)
                have hn : (processArticles u limit (env.passes k).articles ts 0).2 ≠ 0 := by
                  intro h0'
                  exact h2 ⟨by rw [hh, hlast], h0'⟩
                omega
    · rw [if_neg hc]
      simp

/-! ## C1: result length versus the limit -/

/-- C1 (corrected): for every environment, username, output path and fuel,
if `limit` is non-negative then the returned sequence of
`scrape_user_tweets` never has more than `limit` items.  (As literally
stated — for ANY limit — the claim fails: a negative limit returns an
empty list whose length 0 exceeds the negative limit, see the
counterexample.) -/
theorem scrape_len_le_limit :
    ∀ (env : Env) (username : String) (limit : Int) (output_file : Option String)
      (fuel : Nat), 0 ≤ limit →
      ((resultTweets (scrape_user_tweets env username limit output_file fuel)).length : Int)
        ≤ limit := by
  intro env u limit o fuel h0
  unfold scrape_user_tweets
  by_cases h1 : env.startOk = true
  case neg => rw [if_neg h1]; simpa [resultTweets] using h0
  rw [if_pos h1]
  by_cases h2 : env.navOk = true
  case neg => rw [if_neg h2]; simpa [resultTweets] using h0
  rw [if_pos h2]
  by_cases h3 : env.waitOk = true
  case neg => rw [if_neg h3]; simpa [resultTweets] using h0
  rw [if_pos h3]
  have hl := loop_len_le env u limit h0 fuel 0 [] env.initHeight (by simpa using h0)
  cases hres : loop env u limit fuel 0 [] env.initHeight with
  | done ts =>
    rw [hres] at hl
    simpa [resultTweets, exitTweets] using hl
  | raised ts => simpa [resultTweets] using h0
  | fuelOut => simpa [resultTweets] using h0

/-- C1 witness: the bound holds at a concrete run with limit 3. -/
theorem scrape_len_le_limit_witness :
    ((resultTweets (scrape_user_tweets envGood "alice" 3 none 10)).length : Int) ≤ 3 :=
  scrape_len_le_limit envGood "alice" 3 none 10 (by decide)

/-- C1 counterexample: with `limit = -1` the run returns an empty list, and
`0 ≤ -1` is false — the returned length exceeds the limit, contradicting
the claim read over all limits. -/
theorem scrape_len_exceeds_negative_limit_cex :
    ¬ (((resultTweets (scrape_user_tweets envGood "alice" (-1) none 5)).length : Int)
        ≤ -1) := by
  decide

/-! ## C2: pairwise-distinct ids -/

/-- C2 (confirmed): at every point of the collection loop (any start state
with pairwise-distinct ids keeps them distinct through every exit), and in
particular for the returned sequence of every run, the `id` values are
pairwise distinct. -/
theorem scrape_ids_nodup :
    (∀ (env : Env) (u : String) (limit : Int) (fuel k : Nat)
        (ts : List Tweet) (lastH : Int),
        (ts.map Tweet.id).Nodup →
        ((exitTweets (loop env u limit fuel k ts lastH)).map Tweet.id).Nodup) ∧
    ∀ (env : Env) (u : String) (limit : Int) (o : Option String) (fuel : Nat),
      ((resultTweets (scrape_user_tweets env u limit o fuel)).map Tweet.id).Nodup := by
  constructor
  · intro env u limit fuel k ts lastH h
    exact loop_nodup env u limit fuel k ts lastH h
  · intro env u limit o fuel
    unfold scrape_user_tweets
    by_cases h1 : env.startOk = true
    case neg => rw [if_neg h1]; simp [resultTweets]
    rw [if_pos h1]
    by_cases h2 : env.navOk = true
    case neg => rw [if_neg h2]; simp [resultTweets]
    rw [if_pos h2]
    by_cases h3 : env.waitOk = true
    case neg => rw [if_neg h3]; simp [resultTweets]
    rw [if_pos h3]
    have hl := loop_nodup env u limit fuel 0 [] env.initHeight (by simp)
    cases hres : loop env u limit fuel 0 [] env.initHeight with
    | done ts =>
      rw [hres] at hl
      simpa [resultTweets, exitTweets] using hl
    | raised ts => simp [resultTweets]
    | fuelOut => simp [resultTweets]

/-- C2 witness: the loop invariant instantiated on a concrete run whose feed
repeats a duplicate article. -/
theorem scrape_ids_nodup_witness :
    ((exitTweets (loop envGood "alice" 5 10 0 [] 0)).map Tweet.id).Nodup :=
  scrape_ids_nodup.1 envGood "alice" 5 10 0 [] 0 (by simp)

/-! ## C3: termination of the collection loop -/

/-- C3 (amended): the loop terminates for every feed whose scroll extent is
eventually constant — once pass `N` onward reports the same height, a fuel
budget of `N + limit.toNat + 2` iterations is enough for the run to end
(by reaching the limit, detecting stagnation, or propagating a session
error), i.e. the outcome is never `fuelOut`.  (As literally stated — for
feeds whose scroll extent keeps changing — the claim fails, see the
counterexample.) -/
theorem loop_terminates_of_stable_height :
    ∀ (env : Env) (u : String) (limit : Int) (o : Option String) (N : Nat) (H : Int),
      (∀ k, N ≤ k → (env.passes k).height = H) →
      ∀ fuel : Nat, N + limit.toNat + 2 ≤ fuel →
        (scrape_user_tweets env u limit o fuel).outcome ≠ Outcome.fuelOut := by
  intro env u limit o N H hH fuel hfuel
  unfold scrape_user_tweets
  by_cases h1 : env.startOk = true
  case neg => rw [if_neg h1]; simp
  rw [if_pos h1]
  by_cases h2 : env.navOk = true
  case neg => rw [if_neg h2]; simp
  rw [if_pos h2]
  by_cases h3 : env.waitOk = true
  case neg => rw [if_neg h3]; simp
  rw [if_pos h3]
  have hnf := loop_no_fuelOut env u limit N H hH fuel 0 [] env.initHeight
    (by intro h; exact absurd h (Nat.not_lt_zero N)) (by simp; omega)
  cases hres : loop env u limit fuel 0 [] env.initHeight with
  | done ts => simp
  | raised ts => simp
  | fuelOut => exact absurd hres hnf

/-- C3 witness: a concrete constant-height feed terminates within the
computed fuel budget. -/
theorem loop_terminates_witness :
    (scrape_user_tweets envGood "alice" 3 none 10).outcome ≠ Outcome.fuelOut :=
  loop_terminates_of_stable_height envGood "alice" 3 none 0 0
    (fun _ _ => rfl) 10 (by decide)

/-- On the diverging feed the loop spends all its fuel from any start state
whose `last_height` differs from the next observed height. -/
theorem envDiverge_loop_fuelOut :
    ∀ (fuel k : Nat) (lastH : Int), lastH ≠ (k : Int) + 1 →
      loop envDiverge "alice" 5 fuel k [] lastH = .fuelOut := by
  intro fuel
  induction fuel with
  | zero =>
    intro k lastH h
    simp only [loop]
    rw [if_pos (by norm_num : ((List.length ([] : List Tweet) : Int) < 5))]
  | succ fuel ih =>
    intro k lastH h
    simp only [loop]
    rw [if_pos (by norm_num : ((List.length ([] : List Tweet) : Int) < 5))]
    have hp : envDiverge.passes k =
        { articles := [], raise := false, height := (k : Int) + 1 } := rfl
    rw [hp]
    dsimp only
    simp only [processArticles, List.length_nil, Bool.false_eq_true, if_false, and_true]
    rw [if_neg (show ¬ ((k : Int) + 1 = lastH) from fun hcon => h hcon.symm)]
    exact ih (k + 1) ((k : Int) + 1) (by push_cast; omega)

/-- C3 counterexample: a feed that never yields an item while its scroll
height changes on every pass makes the loop run forever — no fuel bound
finishes the run, refuting termination for arbitrary feeds. -/
theorem scrape_diverges_cex :
    ¬ ∃ fuel : Nat,
        (scrape_user_tweets envDiverge "alice" 5 none fuel).outcome ≠ Outcome.fuelOut := by
  rintro ⟨fuel, hf⟩
  apply hf
  have h := envDiverge_loop_fuelOut fuel 0 0 (by norm_num)
  unfold scrape_user_tweets
  have e1 : envDiverge.startOk = true := rfl
  have e2 : envDiverge.navOk = true := rfl
  have e3 : envDiverge.waitOk = true := rfl
  have e4 : envDiverge.initHeight = (0 : Int) := rfl
  rw [if_pos e1, if_pos e2, if_pos e3, e4, h]

/-! ## C4: invalid invocations -/

/-- C4 counterexample: with an empty username and `limit = 0`, the run is
NOT rejected: the driver is acquired, the run completes normally and even
writes the output file — there is no fail-fast validation anywhere in the
source. -/
theorem no_fail_fast_cex :
    (scrape_user_tweets envGood "" 0 none 5).acquired = true ∧
    (scrape_user_tweets envGood "" 0 none 5).outcome = Outcome.ok [] ∧
    (scrape_user_tweets envGood "" 0 none 5).written ≠ none := by
  decide

/-- C4 (corrected): the source performs no input validation.  A run with a
non-positive limit (for any username, including the empty one) still
acquires the session, runs zero loop iterations, releases the session once,
persists an empty list and returns it. -/
theorem nonpositive_limit_not_rejected :
    ∀ (env : Env) (u : String) (o : Option String) (fuel : Nat) (limit : Int),
      limit ≤ 0 → env.startOk = true → env.navOk = true → env.waitOk = true →
      scrape_user_tweets env u limit o fuel =
        { acquired := true, quits := 1
          written := some { path := outputFileOf o u, data := []
                            ensureAscii := false, indent := 4, encoding := "utf-8" }
          outcome := .ok [] } := by
  intro env u o fuel limit hl h1 h2 h3
  unfold scrape_user_tweets
  rw [if_pos h1, if_pos h2, if_pos h3]
  have hc : ¬ ((List.length ([] : List Tweet) : Int) < limit) := by
    simp only [List.length_nil, Nat.cast_zero]
    omega
  have hloop : loop env u limit fuel 0 [] env.initHeight = .done [] := by
    cases fuel with
    | zero => simp only [loop]; rw [if_neg hc]
    | succ fuel => simp only [loop]; rw [if_neg hc]
  rw [hloop]

/-- C4 witness: the corrected statement at a concrete invalid invocation. -/
theorem nonpositive_limit_not_rejected_witness :
    scrape_user_tweets envGood "bob" (-2) (some "out.json") 7 =
      { acquired := true, quits := 1
        written := some { path := "out.json", data := [], ensureAscii := false
                          indent := 4, encoding := "utf-8" }
        outcome := .ok [] } :=
  (nonpositive_limit_not_rejected envGood "bob" (some "out.json") 7 (-2)
    (by decide) rfl rfl rfl).trans (by decide)

/-! ## C5: session release -/

/-- C5 (corrected): the session is released exactly once when and only when
the function returns normally (loop completion or initial-wait timeout);
when an error propagates — driver startup, navigation, or a mid-loop
session error — the session is NOT released at all (the source has no
`try`/`finally`), and a non-finishing run never releases it. -/
theorem quit_matches_normal_return :
    ∀ (env : Env) (u : String) (limit : Int) (o : Option String) (fuel : Nat),
      (scrape_user_tweets env u limit o fuel).quits =
        match (scrape_user_tweets env u limit o fuel).outcome with
        | .ok _ => 1
        | _ => 0 := by
  intro env u limit o fuel
  unfold scrape_user_tweets
  by_cases h1 : env.startOk = true
  case neg => rw [if_neg h1]
  rw [if_pos h1]
  by_cases h2 : env.navOk = true
  case neg => rw [if_neg h2]
  rw [if_pos h2]
  by_cases h3 : env.waitOk = true
  case neg => rw [if_neg h3]
  rw [if_pos h3]
  cases loop env u limit fuel 0 [] env.initHeight <;> rfl

/-- C5 counterexample: navigation raises after the driver was acquired; the
error propagates but `driver.quit()` never runs, refuting the claimed
release-before-propagation. -/
theorem error_after_acquire_no_release_cex :
    (scrape_user_tweets envNavFail "alice" 5 none 10).acquired = true ∧
    (scrape_user_tweets envNavFail "alice" 5 none 10).outcome = Outcome.err ∧
    (scrape_user_tweets envNavFail "alice" 5 none 10).quits = 0 := by
  decide

/-! ## C6: the timeout path -/

/-- C6 (confirmed): whenever the initial wait for a feed-item container
times out, the run returns an empty sequence without raising, and the
session is released (exactly once) before returning; nothing is written. -/
theorem timeout_returns_empty_and_releases :
    ∀ (env : Env) (u : String) (limit : Int) (o : Option String) (fuel : Nat),
      env.startOk = true → env.navOk = true → env.waitOk = false →
      scrape_user_tweets env u limit o fuel =
        { acquired := true, quits := 1, written := none, outcome := .ok [] } := by
  intro env u limit o fuel h1 h2 h3
  unfold scrape_user_tweets
  rw [if_pos h1, if_pos h2, if_neg (by simp [h3])]

/-- C6 witness: the timeout path at a concrete environment. -/
theorem timeout_returns_empty_witness :
    scrape_user_tweets envTimeout "alice" 5 none 10 =
      { acquired := true, quits := 1, written := none, outcome := .ok [] } :=
  timeout_returns_empty_and_releases envTimeout "alice" 5 none 10 rfl rfl rfl

/-! ## C7: count parsing -/

/-- C7 counterexample: on input `"K"` the `K` branch strips the `K`, calls
`float("")` and raises `ValueError` (modelled as `none`) — the function
does not "yield 0 on parse failure" as the claim states for every input. -/
theorem parse_count_raises_cex : _parse_count "K" = none := by decide

/-- C7 (corrected): `_parse_count` trims and uppercases; a string containing
`K` has its numeric prefix parsed as a float, multiplied by 1000 and
truncated; `M` analogously with 1000000; otherwise a plain integer parse
whose failure — and an empty input — yields 0.  All the spec's examples
hold, but a float-parse failure inside the `K`/`M` branches raises
`ValueError` (propagating to the per-item handler) instead of yielding 0. -/
theorem parse_count_rules :
    _parse_count "0" = some 0 ∧
    _parse_count "1.2K" = some 1200 ∧
    _parse_count "3M" = some 3000000 ∧
    _parse_count "" = some 0 ∧
    _parse_count "abc" = some 0 ∧
    _parse_count " 12 " = some 12 ∧
    _parse_count "1.5k" = some 1500 ∧
    _parse_count "XK" = none := by
  decide

/-! ## C8: timestamp extraction -/

/-- Any successfully extracted item carries exactly the date the timestamp
block produced, and the text block's content (empty when absent). -/
theorem extract_some_date (u : String) (ex : List Tweet) (a : Article) (tw : Tweet)
    (h : extractArticle u ex a = some tw) :
    dateVal a.timeAttr = .val tw.date ∧ tw.content = a.tweetText.getD "" := by
  unfold extractArticle at h
  by_cases hd : dupSkip ex a = true
  · rw [if_pos hd] at h; cases h
  · rw [if_neg hd] at h
    cases hdv : dateVal a.timeAttr with
    | skip => rw [hdv] at h; cases h
    | val d =>
      rw [hdv] at h
      cases hs : statsOf a.statElems with
      | none => rw [hs] at h; cases h
      | some s =>
        rw [hs] at h
        cases hid : tweetIdOf a.links with
        | none => rw [hid] at h; cases h
        | some tid =>
          rw [hid] at h
          dsimp only at h
          by_cases he : tid.isEmpty = true
          · rw [if_pos he] at h; cases h
          · rw [if_neg he] at h
            obtain rfl := Option.some.inj h
            exact ⟨rfl, rfl⟩

/-- C8 (corrected): timestamp extraction is fault-tolerant for an ABSENT
time element and for an unparseable datetime value — in both cases the item
is still collected with a `null` date — and a valid ISO-8601-with-Z value is
normalized to `YYYY-MM-DD HH:MM:SS`; but when the time element exists with
its `datetime` attribute MISSING, the resulting `AttributeError` escapes the
inner handler and the whole item is skipped, contrary to the claim. -/
theorem timestamp_fault_tolerance :
    (∀ (u : String) (ex : List Tweet) (a : Article) (tw : Tweet),
        a.timeAttr = none → extractArticle u ex a = some tw →
        tw.date = none ∧ tw.content = a.tweetText.getD "") ∧
    (∀ (u : String) (ex : List Tweet) (a : Article),
        a.timeAttr = none →
        (extractArticle u ex a).isSome =
          (extractArticle u ex
            { a with timeAttr := some (some "2020-01-01T00:00:00Z") }).isSome) ∧
    (∀ (u : String) (ex : List Tweet) (a : Article),
        a.timeAttr = some none → extractArticle u ex a = none) ∧
    (∀ (u : String) (ex : List Tweet) (a : Article) (tw : Tweet) (s : String),
        a.timeAttr = some (some s) →
        isoDisplay (pyReplace s "Z" "+00:00") = none →
        extractArticle u ex a = some tw → tw.date = none) ∧
    isoDisplay (pyReplace "2023-05-01T10:20:30.000Z" "Z" "+00:00") =
      some "2023-05-01 10:20:30" := by
  refine ⟨?_, ?_, ?_, ?_, by decide⟩
  · intro u ex a tw h1 h2
    have hd := extract_some_date u ex a tw h2
    rw [h1] at hd
    simp only [dateVal] at hd
    exact ⟨(DateRes.val.inj hd.1).symm, hd.2⟩
  · intro u ex a h1
    have hdup : dupSkip ex { a with timeAttr := some (some "2020-01-01T00:00:00Z") } =
        dupSkip ex a := rfl
    have h2020 : dateVal (some (some "2020-01-01T00:00:00Z")) =
        DateRes.val (some "2020-01-01 00:00:00") := by decide
    unfold extractArticle
    rw [hdup, h1]
    show (if dupSkip ex a = true then none else _).isSome =
      (if dupSkip ex a = true then none else _).isSome
    by_cases hd : dupSkip ex a = true
    · rw [if_pos hd, if_pos hd]
    · rw [if_neg hd, if_neg hd]
      dsimp only
      rw [h2020]
      simp only [dateVal]
      cases hs : statsOf a.statElems with
      | none => rfl
      | some s =>
        cases hid : tweetIdOf a.links with
        | none => rfl
        | some tid =>
          dsimp only
          by_cases he : tid.isEmpty = true
          · rw [if_pos he, if_pos he]
          · rw [if_neg he, if_neg he]
            rfl
  · intro u ex a h1
    unfold extractArticle
    rw [h1]
    by_cases hd : dupSkip ex a = true
    · rw [if_pos hd]
    · rw [if_neg hd]
      simp only [dateVal]
  · intro u ex a tw s h1 hiso h2
    have hd := extract_some_date u ex a tw h2
    rw [h1] at hd
    simp only [dateVal, hiso] at hd
    exact (DateRes.val.inj hd.1).symm

/-- C8 witness: a concrete article without a time element is collected with
a null date and its text intact. -/
theorem timestamp_fault_tolerance_witness :
    twNoTime.date = none ∧ twNoTime.content = artNoTime.tweetText.getD "" :=
  timestamp_fault_tolerance.1 "carol" [] artNoTime twNoTime rfl (by decide)

/-- C8 counterexample: an article whose time element is present but whose
`datetime` attribute is missing is skipped entirely (the claim says it
should be collected with a null timestamp); the same article with the time
element absent IS collected. -/
theorem missing_attr_skips_item_cex :
    extractArticle "alice" [] artAttrMissing = none ∧
    (extractArticle "alice" [] { artAttrMissing with timeAttr := none }).isSome = true := by
  decide

/-! ## C9: tag and mention extraction -/

/-- C9 (confirmed): tags and mentions are the `#\w+` / `@\w+` matches of the
item text, stripped of the marker, in order of first appearance with
duplicates retained — checked on the specification's example through the
full per-item extraction, and on a duplicate-retention example. -/
theorem tags_mentions_extraction :
    extractArticle "bob" [] artTagged =
      some { id := "9", date := none
             content := "Loving #rust and #go, cc @alice"
             url := "https://twitter.com/bob/status/9"
             replyCount := 0, retweetCount := 0, likeCount := 0
             hashtags := ["rust", "go"], mentionedUsers := ["alice"]
             has_media := false } ∧
    findMarked '#' ("Loving #rust and #go, cc @alice").toList = ["rust", "go"] ∧
    findMarked '@' ("Loving #rust and #go, cc @alice").toList = ["alice"] ∧
    findMarked '#' ("#dup #x #dup ##y #_z9").toList = ["dup", "x", "dup", "y", "_z9"] := by
  decide

/-! ## C10: persistence of the result -/

/-- C10 (corrected): every run that acquires its session and passes the
initial wait persists, on normal completion, exactly the returned sequence
in a single write event carrying the script's constants (default or given
path, `ensure_ascii=False`, `indent=4`, UTF-8); but a run ending through the
initial-wait timeout returns an empty sequence WITHOUT writing any file,
contrary to the claim's "including timeout runs". -/
theorem completed_run_persists :
    (∀ (env : Env) (u : String) (limit : Int) (o : Option String) (fuel : Nat)
        (ts : List Tweet),
        env.startOk = true → env.navOk = true → env.waitOk = true →
        (scrape_user_tweets env u limit o fuel).outcome = Outcome.ok ts →
        (scrape_user_tweets env u limit o fuel).written =
          some { path := outputFileOf o u, data := ts, ensureAscii := false
                 indent := 4, encoding := "utf-8" }) ∧
    ∀ (env : Env) (u : String) (limit : Int) (o : Option String) (fuel : Nat),
      env.startOk = true → env.navOk = true → env.waitOk = false →
      (scrape_user_tweets env u limit o fuel).written = none ∧
      (scrape_user_tweets env u limit o fuel).outcome = Outcome.ok [] := by
  constructor
  · intro env u limit o fuel ts h1 h2 h3 hok
    unfold scrape_user_tweets at hok ⊢
    rw [if_pos h1, if_pos h2, if_pos h3] at hok ⊢
    cases hres : loop env u limit fuel 0 [] env.initHeight with
    | done ts' =>
      rw [hres] at hok
      dsimp only at hok ⊢
      injection hok with hok
      rw [hok]
    | raised ts' =>
      rw [hres] at hok
      cases hok
    | fuelOut =>
      rw [hres] at hok
      cases hok
  · intro env u limit o fuel h1 h2 h3
    unfold scrape_user_tweets
    rw [if_pos h1, if_pos h2, if_neg (by simp [h3])]
    exact ⟨rfl, rfl⟩

/-- C10 witness: a concrete completed run writes its (here empty) result at
the default path with the script's serialization constants. -/
theorem completed_run_persists_witness :
    (scrape_user_tweets envGood "alice" 0 none 5).written =
      some { path := outputFileOf none "alice", data := [], ensureAscii := false
             indent := 4, encoding := "utf-8" } :=
  completed_run_persists.1 envGood "alice" 0 none 5 [] rfl rfl rfl (by decide)

/-- C10 counterexample: a run ending through the initial-wait timeout
returns normally yet writes nothing, refuting "every run persists ...
including runs that end via the initial-wait timeout". -/
theorem timeout_writes_nothing_cex :
    (scrape_user_tweets envTimeout "alice" 5 none 10).outcome = Outcome.ok [] ∧
    (scrape_user_tweets envTimeout "alice" 5 none 10).written = none := by
  decide
